import Mathlib

/-!
CaravanMasterX — verification of the decision-and-risk layer

Shallow embedding of the core algorithmic functions of the CaravanMasterX
trading engine (position sizing, Kelly sizing, trade validation, signal
aggregation and decision thresholds, TWAP scheduling, volatility-based
sizing multipliers, efficient-frontier control flow, rebalancing), with
theorems checking the specification's statements against the code.

Conventions of the embedding:
* Python floats are modelled as `ℚ` (the functions at issue involve only
  field arithmetic, `abs`, `min`/`max` and comparisons).
* A Python function that can raise returns `Except PyError _`; the error
  checks appear in the same order as the raising operations execute.
* IEEE NaN is modelled by `Option ℚ` (`none` = NaN) at the one place the
  code propagates NaN (the pandas rolling standard deviation); every
  comparison against `none` is `false`, exactly as every comparison
  against NaN is `False` in IEEE arithmetic.
* External collaborators (the SciPy solver, the per-signal enhancement
  pipeline that performs I/O) are abstracted as function parameters; a
  `none`/`Option` result models an exception caught by the caller.
-/

namespace CaravanMasterX

/-- Error kinds observable from the embedded functions. `ZeroDivisionError`
and `IndexError` are the Python exceptions the source can raise.
`InvalidStopDistance` is an error class named by the specification only;
the source defines no such class, and the constructor is included so that
the specification's statement about it can be expressed (and refuted). -/
inductive PyError where
  | ZeroDivisionError
  | IndexError
  | InvalidStopDistance
deriving DecidableEq, Repr

instance {ε α : Type} [DecidableEq ε] [DecidableEq α] : DecidableEq (Except ε α) :=
  fun x y =>
    match x, y with
    | .error a, .error b =>
      if h : a = b then .isTrue (congrArg Except.error h)
      else .isFalse fun hc => h (by cases hc; rfl)
    | .ok a, .ok b =>
      if h : a = b then .isTrue (congrArg Except.ok h)
      else .isFalse fun hc => h (by cases hc; rfl)
    | .error _, .ok _ => .isFalse fun hc => Except.noConfusion hc
    | .ok _, .error _ => .isFalse fun hc => Except.noConfusion hc

/-! ## DynamicRiskManager (src/strategy/dynamic_risk_manager.py) -/

/-- Result dictionary of `DynamicRiskManager.calculate_position_size`. -/
structure SizingResult where
  position_size_usd : ℚ
  position_size_base : ℚ
  risk_amount : ℚ
  risk_percentage : ℚ
  leverage : ℚ
  stop_loss_distance_pct : ℚ
  volatility_adjustment : ℚ
  regime_multiplier : ℚ
deriving DecidableEq, Repr

/-- Python's `str.lower()`: lower-case each character. (Defined over the
underlying character list so that the kernel can evaluate it.) -/
def py_lower (s : String) : String := ⟨s.data.map Char.toLower⟩

/-- Embeds `DynamicRiskManager._get_regime_multiplier`: dictionary lookup on the
lower-cased regime name, default 1.0. -/
def get_regime_multiplier (market_regime : String) : ℚ :=
  if py_lower market_regime = "normal" then 1
  else if py_lower market_regime = "volatile" then 7/10
  else if py_lower market_regime = "extreme" then 1/2
  else 1

/-- Embeds `DynamicRiskManager.calculate_position_size`. The four `if` guards model,
in execution order, the divisions the Python code performs unconditionally:
by `entry_price` (stop-distance percentage), by `volatility_adjustment`,
by `stop_loss_pct`, and by `account_balance` (the `risk_percentage` entry of
the result dictionary). No `InvalidStopDistance` guard exists in the source. -/
def calculate_position_size (base_risk_per_trade max_portfolio_risk : ℚ)
    (account_balance entry_price stop_loss volatility_adjustment : ℚ)
    (market_regime : String) : Except PyError SizingResult :=
  if entry_price = 0 then .error .ZeroDivisionError else
  let stop_loss_pct := |entry_price - stop_loss| / entry_price
  let base_risk_amount := account_balance * base_risk_per_trade
  if volatility_adjustment = 0 then .error .ZeroDivisionError else
  let volatility_adjusted_risk := base_risk_amount / volatility_adjustment
  let regime_multiplier := get_regime_multiplier market_regime
  let adjusted_risk_amount := volatility_adjusted_risk * regime_multiplier
  if stop_loss_pct = 0 then .error .ZeroDivisionError else
  let position_size := adjusted_risk_amount / stop_loss_pct
  let max_position_size := account_balance * max_portfolio_risk
  let final_position_size := min position_size max_position_size
  let leverage := if account_balance > 0 then final_position_size / account_balance else 1
  if account_balance = 0 then .error .ZeroDivisionError else
  .ok { position_size_usd := final_position_size
        position_size_base := final_position_size / entry_price
        risk_amount := adjusted_risk_amount
        risk_percentage := adjusted_risk_amount / account_balance * 100
        leverage := leverage
        stop_loss_distance_pct := stop_loss_pct * 100
        volatility_adjustment := volatility_adjustment
        regime_multiplier := regime_multiplier }

/-- Embeds `DynamicRiskManager.calculate_kelly_criterion`. When `avg_loss > 0` and
`avg_win = 0`, the odds ratio `b` is `0` and the Python expression
`(b * p - q) / b` raises `ZeroDivisionError`. -/
def calculate_kelly_criterion (win_rate avg_win avg_loss : ℚ) : Except PyError ℚ :=
  if avg_loss ≤ 0 then .ok 0
  else
    let b := avg_win / avg_loss
    if b = 0 then .error .ZeroDivisionError
    else
      let p := win_rate
      let q := 1 - win_rate
      let kelly_fraction := (b * p - q) / b
      .ok (max 0 (min (kelly_fraction * (1/2)) (1/4)))

/-! ## RiskManager (src/strategy/risk_management.py) -/

/-- Result dictionary of `RiskManager.validate_trade`. The early-return
branch (`risk <= 0`) carries no ratio, so the ratio field is optional. -/
structure TradeValidation where
  valid : Bool
  risk_reward_ratio : Option ℚ
deriving DecidableEq, Repr

/-- Embeds `RiskManager.validate_trade` with the configured
`min_risk_reward_ratio` (default 2.0) passed explicitly. -/
def validate_trade ( min_risk_reward_ratio entry_price take_profit stop_loss : ℚ) :
    TradeValidation :=
  let risk := |entry_price - stop_loss|
  let reward := |take_profit - entry_price|
  if risk ≤ 0 then { valid := false, risk_reward_ratio := none }
  else
    let risk_reward_ratio := reward / risk
    { valid := decide ( min_risk_reward_ratio ≤ risk_reward_ratio)
      risk_reward_ratio := some risk_reward_ratio }

/-! ## TWAPStrategy (src/strategy/twap_strategy.py) -/

/-- One child-order slice of a TWAP schedule. Time is a rational number of
minutes; `timestamp` is an offset from the `now` argument of the scheduler.
The status is the Python string stored in the dictionary. -/
structure TwapSlice where
  interval : ℕ
  amount : ℚ
  timestamp : ℚ
  status : String
deriving DecidableEq, Repr

/-- Embeds `TWAPStrategy.create_execution_schedule`. The source fixes
`intervals = 12` in the body and builds each timestamp as
`datetime.now() + timedelta(minutes=i*5)`; the `duration_minutes`
parameter is accepted (default 60) but never read. -/
def create_execution_schedule (total_amount : ℚ) (duration_minutes : ℚ) (now : ℚ) :
    List TwapSlice :=
  let intervals : ℕ := 12
  let amount_per_interval := total_amount / (intervals : ℚ)
  (List.range intervals).map fun i =>
    { interval := i + 1
      amount := amount_per_interval
      timestamp := now + (i : ℚ) * 5
      status := "PENDING" }

/-! ## VolatilityAdjuster (src/utils/volatility_adjuster.py) -/

/-- IEEE `<` with NaN modelled as `none`: any comparison against NaN is
false. -/
def nanLt (v : Option ℚ) (c : ℚ) : Bool :=
  match v with
  | some x => decide (x < c)
  | none => false

/-- Embeds `VolatilityAdjuster._get_adjustment_factor`: the Python `if/elif` chain
on a float that may be NaN. With `volatility = NaN` every comparison is
false and the chain falls through to the final `else`, returning 0.5. -/
def get_adjustment_factor (volatility : Option ℚ) : ℚ :=
  if nanLt volatility (5/100) then 12/10
  else if nanLt volatility (1/10) then 1
  else if nanLt volatility (2/10) then 8/10
  else 1/2

/-- Embeds `VolatilityAdjuster._calculate_historical_volatility`. The numeric
kernel (log returns, rolling standard deviation over the window, `* √365`)
is abstracted as `std_kernel`, since its value is irrelevant to the claims;
what is embedded is the pandas NaN bookkeeping: the first difference of the
close series is NaN, and `rolling(period).std().iloc[-1]` is a number iff
the last window of `period` returns contains no NaN, i.e. iff
`close.length ≥ period + 1`. On an empty series `.iloc[-1]` raises
`IndexError`. No `InsufficientHistory` error exists in the source. -/
def calculate_historical_volatility (std_kernel : List ℚ → ℚ)
    (close : List ℚ) (period : ℕ) : Except PyError (Option ℚ) :=
  if close.length = 0 then .error .IndexError
  else if close.length < period + 1 then .ok none
  else .ok (some (std_kernel close))

/-- Embeds `VolatilityAdjuster.calculate_position_size`: fetches the (possibly NaN)
14-period volatility and multiplies the base size by the adjustment
factor. -/
def va_calculate_position_size (std_kernel : List ℚ → ℚ)
    (close : List ℚ) (base_size : ℚ) : Except PyError ℚ :=
  (calculate_historical_volatility std_kernel close 14).map fun volatility =>
    base_size * get_adjustment_factor volatility

/-- A trivial numeric kernel used only to instantiate
`calculate_historical_volatility` on concrete inputs whose result does not
depend on the kernel. -/
def zero_kernel : List ℚ → ℚ := fun _ => 0

/-! ## PortfolioOptimizer (src/strategy/portfolio_optimizer.py) -/

/-- Embeds `OptimizationResult` dataclass (timestamp omitted: it is wall-clock
metadata irrelevant to every claim). -/
structure OptimizationResult where
  weights : List ℚ
  expected_return : ℚ
  volatility : ℚ
  sharpe_ratio : ℚ
deriving DecidableEq, Repr

/-- Embeds `PortfolioOptimizer.calculate_efficient_frontier`. The SciPy SLSQP call
inside `_optimize_portfolio` is an external collaborator, abstracted as the
oracle `solve : ℚ → Option OptimizationResult` (`none` models the solver
failing, i.e. the `except` branch that logs and continues). The recursion
mirrors the `for` loop: append on success, skip on failure. -/
def calculate_efficient_frontier (solve : ℚ → Option OptimizationResult) :
    List ℚ → List OptimizationResult
  | [] => []
  | target :: rest =>
    match solve target with
    | some result => result :: calculate_efficient_frontier solve rest
    | none => calculate_efficient_frontier solve rest

/-- Embeds `PortfolioOptimizer.dynamic_rebalancing`: scales the target weights by
the volatility adjustment, renormalizes them to sum to 1, and returns the
adjusted targets together with the elementwise trade deltas. -/
def dynamic_rebalancing (current_weights target_weights : List ℚ)
    (volatility_adjustment : ℚ) : List ℚ × List ℚ :=
  let adjusted_targets := target_weights.map (· * volatility_adjustment)
  let total := adjusted_targets.sum
  let normalized := adjusted_targets.map (· / total)
  (normalized, normalized.zipWith (· - ·) current_weights)

/-! ## EnhancedCaravanMasterStrategy (src/strategy/caravanmaster.py) -/

/-- The `ai_intelligence` dictionary as read by the aggregation code:
`.get('sentiment', 'Neutral')`, so the sentiment key itself is optional. -/
structure AIIntelligence where
  sentiment : Option String
deriving DecidableEq, Repr

/-- The tier fields of a per-symbol analysis dictionary as read by
`_calculate_enhanced_score` / `_calculate_confidence`. Each tier is
`Option (Option ℚ)`: the outer layer is `analysis.get(tier)` being truthy
(a non-empty tier dictionary), the inner layer is the `f'{tier}_score'` key
being present with its numeric value. -/
structure TierAnalysis where
  tier1 : Option (Option ℚ)
  tier2 : Option (Option ℚ)
  tier3 : Option (Option ℚ)
  tier4 : Option (Option ℚ)
  ai_intelligence : Option AIIntelligence
deriving DecidableEq, Repr

/-- The pseudo-score the aggregation appends for an AI sentiment label. -/
def sentiment_pseudo_score (sentiment : String) : ℚ :=
  if sentiment = "Bullish" then 75
  else if sentiment = "Bearish" then 25
  else 50

/-- Embeds `EnhancedCaravanMasterStrategy._calculate_enhanced_score`: mean of the
tier scores present, plus the sentiment pseudo-score when the AI
intelligence dictionary is present; 50 when the score list is empty. -/
def calculate_enhanced_score (a : TierAnalysis) : ℚ :=
  let scores := [a.tier1, a.tier2, a.tier3, a.tier4].filterMap (fun t => t.bind id)
  let scores :=
    match a.ai_intelligence with
    | some ai => scores ++ [sentiment_pseudo_score (ai.sentiment.getD "Neutral")]
    | none => scores
  if scores.isEmpty then 50 else scores.sum / (scores.length : ℚ)

/-- Embeds `EnhancedCaravanMasterStrategy._calculate_confidence`: tiers present
over four, plus 0.1 when the AI intelligence dictionary is present, capped
at 1.0. -/
def calculate_confidence (a : TierAnalysis) : ℚ :=
  let available_tiers :=
    ([a.tier1, a.tier2, a.tier3, a.tier4].filter Option.isSome).length
  let base_confidence := (available_tiers : ℚ) / 4
  let base_confidence :=
    if a.ai_intelligence.isSome then base_confidence + 1/10 else base_confidence
  min base_confidence 1

/-- The fields of a per-symbol analysis dictionary as read by
`_generate_base_signal`, each through `.get` with a default:
`enhanced_score` (default 50), `confidence` (default 0.5), and
`tier1.current_price` (default 0, via `get('tier1', {})`). -/
structure AnalysisData where
  enhanced_score : Option ℚ
  confidence : Option ℚ
  current_price : Option ℚ
deriving DecidableEq, Repr

/-- The base-signal dictionary built by `_generate_base_signal`
(timestamp omitted: wall-clock metadata). -/
structure BaseSignal where
  symbol : String
  action : String
  entry_price : ℚ
  take_profit : ℚ
  stop_loss : ℚ
  leverage : ℚ
  confidence : ℚ
deriving DecidableEq, Repr

/-- Embeds `EnhancedCaravanMasterStrategy._generate_base_signal`: the threshold
chain on (enhanced_score, confidence) choosing the action and leverage,
then the entry/TP/SL ladder per action family. -/
def generate_base_signal (symbol : String) (analysis_data : AnalysisData) :
    BaseSignal :=
  let enhanced_score := analysis_data.enhanced_score.getD 50
  let confidence := analysis_data.confidence.getD (1/2)
  let current_price := analysis_data.current_price.getD 0
  let action_leverage : String × ℚ :=
    if enhanced_score ≥ 75 ∧ confidence ≥ 8/10 then ("STRONG_BUY", 15)
    else if enhanced_score ≥ 65 ∧ confidence ≥ 7/10 then ("BUY", 12)
    else if enhanced_score ≤ 25 ∧ confidence ≥ 8/10 then ("STRONG_SELL", 15)
    else if enhanced_score ≤ 35 ∧ confidence ≥ 7/10 then ("SELL", 12)
    else ("HOLD", 1)
  let action := action_leverage.1
  let prices : ℚ × ℚ × ℚ :=
    if action = "BUY" ∨ action = "STRONG_BUY" then
      (current_price * (998/1000), current_price * (106/100), current_price * (96/100))
    else if action = "SELL" ∨ action = "STRONG_SELL" then
      (current_price * (1002/1000), current_price * (94/100), current_price * (104/100))
    else (current_price, current_price, current_price)
  { symbol := symbol
    action := action
    entry_price := prices.1
    take_profit := prices.2.1
    stop_loss := prices.2.2
    leverage := action_leverage.2
    confidence := confidence }

/-- Embeds `EnhancedCaravanMasterStrategy.generate_precision_signals`: the loop
over the analysis entries. An entry whose base action is `'HOLD'` is
skipped (`continue`) before any enhancement. The enhancement pipeline
(`_enhance_signal_precision` then `_apply_volatility_adjustments`, both
performing I/O) is abstracted as `enhance`; `none` models an exception
caught by the `except` branch, which also skips the entry. -/
def generate_precision_signals (enhance : BaseSignal → Option BaseSignal)
    (analysis : List (String × AnalysisData)) : List BaseSignal :=
  analysis.filterMap fun entry =>
    let base_signal := generate_base_signal entry.1 entry.2
    if base_signal.action = "HOLD" then none
    else enhance base_signal

/-- The tier scores present in an analysis: score of every tier that is
present (truthy) and carries its score key. -/
def tier_scores_present (a : TierAnalysis) : List ℚ :=
  [a.tier1, a.tier2, a.tier3, a.tier4].filterMap (fun t => t.bind id)

/-- The number of tiers present (truthy) in an analysis. -/
def tiers_present_count (a : TierAnalysis) : ℕ :=
  ([a.tier1, a.tier2, a.tier3, a.tier4].filter Option.isSome).length

/-- A concrete solver oracle used to exercise the efficient-frontier control
flow on concrete inputs: it fails on target 2 and converges elsewhere. -/
def demo_solver : ℚ → Option OptimizationResult :=
  fun target => if target = 2 then none else some ⟨[1], target, 1, 1⟩

/-! ## Theorems -/

/-- Helper: the regime dictionary at its three listed keys. -/
theorem get_regime_multiplier_eq (regime : String)
    (h : regime = "normal" ∨ regime = "volatile" ∨ regime = "extreme") :
    get_regime_multiplier regime =
      if regime = "normal" then 1 else if regime = "volatile" then 7/10 else 1/2 := by
  rcases h with h | h | h <;> subst h <;>
    simp [get_regime_multiplier, show py_lower "normal" = "normal" from rfl,
      show py_lower "volatile" = "volatile" from rfl,
      show py_lower "extreme" = "extreme" from rfl]

/-- C1, counterexample: with `entry_price = stop_loss = 100` the
position-sizing operation fails with `ZeroDivisionError` raised by the
division by the zero stop distance — not with `InvalidStopDistance`, which
the source never raises. -/
theorem c1_counterexample :
    calculate_position_size (1/100) (3/10) 1000 100 100 1 "normal" =
      Except.error PyError.ZeroDivisionError ∧
    calculate_position_size (1/100) (3/10) 1000 100 100 1 "normal" ≠
      Except.error PyError.InvalidStopDistance := by
  have h : calculate_position_size (1/100) (3/10) 1000 100 100 1 "normal" =
      Except.error PyError.ZeroDivisionError := by norm_num [calculate_position_size]
  exact ⟨h, by rw [h]; decide⟩

/-- C1, amended: for every call with `entry_price = stop_loss` (and the
divisions reached beforehand well defined, i.e. `entry_price ≠ 0` and
`volatility_adjustment ≠ 0`), the operation fails — but with a
`ZeroDivisionError` from dividing by the zero stop distance; no
`InvalidStopDistance` guard exists, the division is attempted. -/
theorem c1_zero_stop_distance (base_risk_per_trade max_portfolio_risk
    balance entry vol : ℚ) (regime : String)
    (he : entry ≠ 0) (hv : vol ≠ 0) :
    calculate_position_size base_risk_per_trade max_portfolio_risk
      balance entry entry vol regime = Except.error PyError.ZeroDivisionError := by
  simp [calculate_position_size, he, hv]

/-- C1, witness for the amended theorem at a concrete input. -/
theorem c1_zero_stop_distance_witness :
    (100 : ℚ) ≠ 0 ∧ (1 : ℚ) ≠ 0 ∧
    calculate_position_size (1/100) (3/10) 1000 100 100 1 "normal" =
      Except.error PyError.ZeroDivisionError :=
  ⟨by norm_num, by norm_num,
    c1_zero_stop_distance (1/100) (3/10) 1000 100 1 "normal"
      (by norm_num) (by norm_num)⟩

/-- C2: for positive balance, entry and volatility multiplier, a stop
distinct from the entry, and a regime among normal/volatile/extreme, the
sizing succeeds with
`position_size_usd = min ((balance·r/v·m) / (|entry−stop|/entry), balance·cap)`
(`m` = 1, 0.7, 0.5 per regime) and reported `leverage = size / balance`;
in particular balance 1000, risk 1%, entry 100, stop 96, multiplier 1,
regime normal yields 250. -/
theorem c2_position_size_formula :
    (∀ (base_risk_per_trade max_portfolio_risk balance entry stop vol : ℚ)
      (regime : String), 0 < balance → 0 < entry → stop ≠ entry → 0 < vol →
      (regime = "normal" ∨ regime = "volatile" ∨ regime = "extreme") →
      ∃ r, calculate_position_size base_risk_per_trade max_portfolio_risk
            balance entry stop vol regime = Except.ok r ∧
        r.position_size_usd =
          min ((balance * base_risk_per_trade / vol *
              (if regime = "normal" then 1
               else if regime = "volatile" then 7/10 else 1/2)) /
            (|entry - stop| / entry)) (balance * max_portfolio_risk) ∧
        r.leverage = r.position_size_usd / balance) ∧
    ∃ r, calculate_position_size (1/100) (3/10) 1000 100 96 1 "normal" =
          Except.ok r ∧ r.position_size_usd = 250 := by
  constructor
  · intro brpt mpr balance entry stop vol regime hbal hentry hstop hvol hreg
    have he : entry ≠ 0 := ne_of_gt hentry
    have hv : vol ≠ 0 := ne_of_gt hvol
    have hb : balance ≠ 0 := ne_of_gt hbal
    have hsp : |entry - stop| / entry ≠ 0 :=
      div_ne_zero (abs_ne_zero.mpr (sub_ne_zero.mpr (Ne.symm hstop))) he
    simp only [calculate_position_size, if_neg he, if_neg hv, if_neg hsp, if_neg hb]
    refine ⟨_, rfl, ?_, ?_⟩
    · rw [get_regime_multiplier_eq regime hreg]
    · rw [if_pos hbal]
  · exact ⟨⟨250, 5/2, 10, 1, 1/4, 4, 1, 1⟩,
      by norm_num [calculate_position_size, get_regime_multiplier, min_def,
        show py_lower "normal" = "normal" from rfl], by norm_num⟩

/-- C2, witness: the general statement applied at the concrete example
(balance 1000, 1% risk, entry 100, stop 96, multiplier 1, regime normal). -/
theorem c2_position_size_formula_witness :
    ∃ r, calculate_position_size (1/100) (3/10) 1000 100 96 1 "normal" =
          Except.ok r ∧
      r.position_size_usd =
        min ((1000 * (1/100) / 1 *
            (if ("normal" : String) = "normal" then 1
             else if ("normal" : String) = "volatile" then 7/10 else 1/2)) /
          (|(100 : ℚ) - 96| / 100)) (1000 * (3/10)) ∧
      r.leverage = r.position_size_usd / 1000 :=
  c2_position_size_formula.1 (1/100) (3/10) 1000 100 96 1 "normal"
    (by norm_num) (by norm_num) (by norm_num) (by norm_num) (Or.inl rfl)

/-- C5, counterexample: with `win_rate = 1/2`, `avg_win = 0`, `avg_loss = 1`
the Kelly operation does not return a fraction at all — the odds ratio `b`
is zero and `(b*p - q)/b` raises `ZeroDivisionError`. -/
theorem c5_counterexample :
    calculate_kelly_criterion (1/2) 0 1 = Except.error PyError.ZeroDivisionError := by
  norm_num [calculate_kelly_criterion]

/-- C5, amended: the Kelly operation returns exactly 0 whenever
`avg_loss ≤ 0`; when `avg_loss > 0` and `avg_win ≠ 0` it returns the
half-Kelly value `((b*p - q)/b) * 0.5` (`b = avg_win/avg_loss`,
`p = win_rate`, `q = 1 - win_rate`) clamped to `[0, 0.25]`; when
`avg_loss > 0` and `avg_win = 0` it raises `ZeroDivisionError` instead of
returning a fraction. -/
theorem c5_kelly_range (win_rate avg_win avg_loss : ℚ) :
    (avg_loss ≤ 0 → calculate_kelly_criterion win_rate avg_win avg_loss = Except.ok 0) ∧
    (0 < avg_loss → avg_win ≠ 0 →
      ∃ f, calculate_kelly_criterion win_rate avg_win avg_loss = Except.ok f ∧
        f = max 0 (min ((avg_win / avg_loss * win_rate - (1 - win_rate)) /
              (avg_win / avg_loss) * (1/2)) (1/4)) ∧
        0 ≤ f ∧ f ≤ 1/4) ∧
    (0 < avg_loss → avg_win = 0 →
      calculate_kelly_criterion win_rate avg_win avg_loss =
        Except.error PyError.ZeroDivisionError) := by
  refine ⟨fun h => ?_, fun hpos hwin => ?_, fun hpos hwin => ?_⟩
  · simp [calculate_kelly_criterion, if_pos h]
  · have hl : ¬ avg_loss ≤ 0 := not_le.mpr hpos
    have hb : avg_win / avg_loss ≠ 0 := div_ne_zero hwin (ne_of_gt hpos)
    simp only [calculate_kelly_criterion, if_neg hl, if_neg hb]
    exact ⟨_, rfl, rfl, le_max_left _ _, max_le (by norm_num) (min_le_right _ _)⟩
  · have hl : ¬ avg_loss ≤ 0 := not_le.mpr hpos
    have hb : avg_win / avg_loss = 0 := by rw [hwin, zero_div]
    simp only [calculate_kelly_criterion, if_neg hl, if_pos hb]

/-- C5, witness: both live branches of the amended theorem at concrete
inputs (`avg_loss = -1` → 0; `win_rate = 0.6, avg_win = 2, avg_loss = 1` →
a clamped half-Kelly fraction in `[0, 0.25]`). -/
theorem c5_kelly_range_witness :
    calculate_kelly_criterion (1/2) 2 (-1) = Except.ok 0 ∧
    ∃ f, calculate_kelly_criterion (6/10) 2 1 = Except.ok f ∧
      f = max 0 (min ((2 / 1 * (6/10) - (1 - 6/10)) / (2 / 1) * (1/2)) (1/4)) ∧
      0 ≤ f ∧ f ≤ 1/4 :=
  ⟨(c5_kelly_range (1/2) 2 (-1)).1 (by norm_num),
   (c5_kelly_range (6/10) 2 1).2.1 (by norm_num) (by norm_num)⟩

/-- C6, counterexample: `validate(entry=100, take_profit=104, stop_loss=96)`
computes ratio `|104 − 100| / |100 − 96| = 1`, not the `0.5` stated by the
claim (the trade is still invalid against the default minimum 2.0). -/
theorem c6_counterexample :
    TradeValidation.risk_reward_ratio (validate_trade 2 100 104 96) = some 1 ∧
    (validate_trade 2 100 104 96).valid = false ∧ (1 : ℚ) ≠ 1/2 := by
  refine ⟨by norm_num [validate_trade], by norm_num [validate_trade], by norm_num⟩

/-- C6, amended: risk/reward validation computes
`ratio = |take_profit − entry| / |entry − stop_loss|` and declares the
trade valid iff the ratio is at least the configured minimum and the risk
is positive; `validate(100, 112, 96)` yields ratio 3.0 and valid, while
`validate(100, 104, 96)` yields ratio 1.0 (not 0.5) and invalid. -/
theorem c6_validate_risk_reward :
    (∀ min_rr entry take_profit stop_loss : ℚ,
      ((validate_trade min_rr entry take_profit stop_loss).valid = true ↔
        min_rr ≤ |take_profit - entry| / |entry - stop_loss| ∧
          0 < |entry - stop_loss|) ∧
      (0 < |entry - stop_loss| →
        TradeValidation.risk_reward_ratio (validate_trade min_rr entry take_profit stop_loss) =
          some (|take_profit - entry| / |entry - stop_loss|))) ∧
    validate_trade 2 100 112 96 = ⟨true, some 3⟩ ∧
    validate_trade 2 100 104 96 = ⟨false, some 1⟩ := by
  refine ⟨fun min_rr entry tp sl => ?_, by norm_num [validate_trade],
    by norm_num [validate_trade]⟩
  by_cases h : |entry - sl| ≤ 0
  · have h0 : |entry - sl| = 0 := le_antisymm h (abs_nonneg _)
    refine ⟨?_, fun hc => absurd hc (by rw [h0]; exact lt_irrefl 0)⟩
    simp [validate_trade, if_pos h, h0]
  · have hpos : 0 < |entry - sl| := lt_of_not_le h
    have hne : entry - sl ≠ 0 := abs_pos.mp hpos
    refine ⟨?_, fun _ => by simp [validate_trade, hne]⟩
    simp [validate_trade, hne, hpos]

/-- C6, witness: the general validation statement applied at the concrete
valid example (entry 100, TP 112, SL 96, minimum 2.0). -/
theorem c6_validate_risk_reward_witness :
    TradeValidation.risk_reward_ratio (validate_trade 2 100 112 96) =
      some (|(112 : ℚ) - 100| / |(100 : ℚ) - 96|) :=
  (c6_validate_risk_reward.1 2 100 112 96).2 (by norm_num)

/-- C7, counterexample: with `duration_minutes = 120` the claim puts slice 1
(0-based) at `now + 1 * (120/12) = now + 10` minutes, but the schedule
produced by the code places it at `now + 5` minutes — the spacing is the
hard-coded 5 minutes, `duration_minutes` is ignored (and the slice count is
the hard-coded 12, `intervals` is not a parameter at all). -/
theorem c7_counterexample :
    ((create_execution_schedule 12 120 0).get? 1).map TwapSlice.timestamp = some 5 ∧
    (5 : ℚ) ≠ 1 * (120 / 12) := by
  constructor
  · simp [create_execution_schedule, List.get?_map,
      List.get?_range (by norm_num : (1:ℕ) < 12)]
  · norm_num

/-- C7, amended: for every `total_amount`, `duration_minutes` and reference
time, the scheduler produces exactly 12 slices (the interval count is fixed
in the body, not a parameter) of amount `total_amount/12` each, with the
i-th slice (i from 0, labelled `interval = i+1`) timestamped at
`now + 5·i` minutes and initial status PENDING; the amounts sum exactly to
`total_amount`, and the schedule does not depend on `duration_minutes`. -/
theorem c7_twap_schedule (total_amount duration_minutes now : ℚ) :
    (create_execution_schedule total_amount duration_minutes now).length = 12 ∧
    (∀ i : ℕ, i < 12 →
      (create_execution_schedule total_amount duration_minutes now).get? i =
        some { interval := i + 1, amount := total_amount / 12,
               timestamp := now + i * 5, status := "PENDING" }) ∧
    ((create_execution_schedule total_amount duration_minutes now).map
      TwapSlice.amount).sum = total_amount ∧
    create_execution_schedule total_amount duration_minutes =
      create_execution_schedule total_amount 60 := by
  refine ⟨?_, ?_, ?_, rfl⟩
  · simp [create_execution_schedule]
  · intro i hi
    simp [create_execution_schedule, List.get?_map, List.getElem?_range hi]
  · simp only [create_execution_schedule, List.map_map, Function.comp]
    norm_num [List.range_succ]
    ring

/-- C7, witness for the amended theorem: the schedule for total 12,
duration 60, reference time 0, inspected at slice index 1. -/
theorem c7_twap_schedule_witness :
    (create_execution_schedule 12 60 0).get? 1 =
      some { interval := 1 + 1, amount := 12 / 12, timestamp := 0 + (1 : ℚ) * 5,
             status := "PENDING" } :=
  (c7_twap_schedule 12 60 0).2.1 1 (by norm_num)

/-- C8, counterexample: with 3 < 15 price samples the volatility estimator
returns NaN (modelled `none`) rather than failing with any error, and the
caller's sizing multiplier becomes 0.5 (base 10 → size 5), not the 1.0 the
claim states. -/
theorem c8_counterexample :
    calculate_historical_volatility zero_kernel [1, 2, 3] 14 = Except.ok none ∧
    va_calculate_position_size zero_kernel [1, 2, 3] 10 = Except.ok 5 ∧
    (5 : ℚ) ≠ 10 * 1 := by
  refine ⟨by norm_num [calculate_historical_volatility], ?_, by norm_num⟩
  norm_num [va_calculate_position_size, calculate_historical_volatility,
    get_adjustment_factor, nanLt, Except.map]

/-- C8, amended: on a non-empty price series with fewer than `window+1`
observations the estimator raises nothing and returns NaN (the rolling
standard deviation of a window containing the NaN first difference); every
NaN comparison in the adjustment chain is false, so the chain falls through
to its final branch and the caller sizes with multiplier 0.5 — not 1.0. -/
theorem c8_nan_multiplier (std_kernel : List ℚ → ℚ) (close : List ℚ)
    (period : ℕ) (base_size : ℚ) (hne : close ≠ [])
    (hlt : close.length < period + 1) :
    calculate_historical_volatility std_kernel close period = Except.ok none ∧
    get_adjustment_factor none = 1/2 ∧
    (period = 14 →
      va_calculate_position_size std_kernel close base_size =
        Except.ok (base_size * (1/2))) := by
  have h0 : close.length ≠ 0 := by simpa using hne
  refine ⟨?_, rfl, ?_⟩
  · simp [calculate_historical_volatility, h0, hlt]
  · intro hp
    subst hp
    simp [va_calculate_position_size, calculate_historical_volatility, h0, hlt,
      get_adjustment_factor, nanLt, Except.map]

/-- C8, witness for the amended theorem at a concrete short series. -/
theorem c8_nan_multiplier_witness :
    calculate_historical_volatility zero_kernel [1, 2, 3] 14 = Except.ok none ∧
    get_adjustment_factor none = 1/2 ∧
    ((14 : ℕ) = 14 →
      va_calculate_position_size zero_kernel [1, 2, 3] 10 =
        Except.ok (10 * (1/2))) :=
  c8_nan_multiplier zero_kernel [1, 2, 3] 14 10 (by simp) (by norm_num)

/-- C3: the aggregation returns the arithmetic mean of the tier scores
present plus, when an AI sentiment label among Bullish/Neutral/Bearish is
present, a pseudo-score of 75/50/25; it defaults to 50 when the score list
is empty; confidence is (tiers present)/4 plus 0.1 when sentiment is
present, capped at 1.0; in particular tier scores 80 and 70 with Bullish
sentiment yield enhanced score 75 and confidence 0.6. -/
theorem c3_aggregation :
    (∀ a : TierAnalysis,
      (tier_scores_present a = [] → a.ai_intelligence = none →
        calculate_enhanced_score a = 50) ∧
      (∀ s : String, (s = "Bullish" ∨ s = "Neutral" ∨ s = "Bearish") →
        a.ai_intelligence = some ⟨some s⟩ →
        calculate_enhanced_score a =
          ((tier_scores_present a).sum +
            (if s = "Bullish" then 75 else if s = "Neutral" then 50 else 25)) /
            ((tier_scores_present a).length + 1)) ∧
      (a.ai_intelligence = none → tier_scores_present a ≠ [] →
        calculate_enhanced_score a =
          (tier_scores_present a).sum / ((tier_scores_present a).length : ℚ)) ∧
      calculate_confidence a =
        min (((tiers_present_count a : ℚ)) / 4 +
          (if a.ai_intelligence.isSome then 1/10 else 0)) 1) ∧
    calculate_enhanced_score
      ⟨some (some 80), some (some 70), none, none, some ⟨some "Bullish"⟩⟩ = 75 ∧
    calculate_confidence
      ⟨some (some 80), some (some 70), none, none, some ⟨some "Bullish"⟩⟩ = 3/5 := by
  refine ⟨fun a => ⟨?_, ?_, ?_, ?_⟩, ?_, ?_⟩
  · intro h1 h2
    simp only [tier_scores_present] at h1
    simp only [calculate_enhanced_score, h2, h1, List.isEmpty_nil, if_true]
  · intro s hs hai
    have hmean : calculate_enhanced_score a =
        ((tier_scores_present a).sum + sentiment_pseudo_score s) /
          ((tier_scores_present a).length + 1) := by
      simp [calculate_enhanced_score, hai, tier_scores_present, List.sum_append,
        Nat.cast_add, add_comm]
    rcases hs with h | h | h <;> subst h <;>
      simpa [sentiment_pseudo_score] using hmean
  · intro h1 h2
    simp only [tier_scores_present] at h2
    simp only [calculate_enhanced_score, tier_scores_present, h1]
    rw [if_neg (by simpa [List.isEmpty_iff] using h2)]
  · by_cases h : a.ai_intelligence.isSome <;>
      simp [calculate_confidence, tiers_present_count, h]
  · norm_num [calculate_enhanced_score, sentiment_pseudo_score,
      List.filterMap_cons, Option.bind]
  · norm_num [calculate_confidence, min_def]

/-- C3, witness: the sentiment branch of the aggregation statement applied
at the concrete example (tiers 80 and 70, Bullish sentiment). -/
theorem c3_aggregation_witness :
    calculate_enhanced_score
        ⟨some (some 80), some (some 70), none, none, some ⟨some "Bullish"⟩⟩ =
      ((tier_scores_present
          ⟨some (some 80), some (some 70), none, none, some ⟨some "Bullish"⟩⟩).sum +
        (if ("Bullish" : String) = "Bullish" then 75
         else if ("Bullish" : String) = "Neutral" then 50 else 25)) /
        ((tier_scores_present
          ⟨some (some 80), some (some 70), none, none, some ⟨some "Bullish"⟩⟩).length + 1) :=
  (c3_aggregation.1
    ⟨some (some 80), some (some 70), none, none, some ⟨some "Bullish"⟩⟩).2.1
    "Bullish" (Or.inl rfl) rfl

/-- C9: the efficient-frontier batch returns exactly one result per target
for which the solver converges, in order (it equals `filterMap` of the
solver over the targets); a target on which the solver fails is skipped
without aborting the batch, and removing a failing target leaves the
results for the other targets unchanged. -/
theorem c9_frontier_skips_failures :
    (∀ (solve : ℚ → Option OptimizationResult) (targets : List ℚ),
      calculate_efficient_frontier solve targets = targets.filterMap solve) ∧
    (∀ (solve : ℚ → Option OptimizationResult) (xs ys : List ℚ) (t : ℚ),
      solve t = none →
      calculate_efficient_frontier solve (xs ++ t :: ys) =
        calculate_efficient_frontier solve (xs ++ ys)) ∧
    (∀ (solve : ℚ → Option OptimizationResult) (targets : List ℚ),
      (calculate_efficient_frontier solve targets).length =
        (targets.filter fun t => (solve t).isSome).length) := by
  have hfm : ∀ (solve : ℚ → Option OptimizationResult) (targets : List ℚ),
      calculate_efficient_frontier solve targets = targets.filterMap solve := by
    intro solve targets
    induction targets with
    | nil => rfl
    | cons t ts ih =>
      cases h : solve t <;>
        simp [calculate_efficient_frontier, List.filterMap_cons, h, ih]
  refine ⟨hfm, fun solve xs ys t ht => ?_, fun solve targets => ?_⟩
  · rw [hfm, hfm, List.filterMap_append, List.filterMap_append,
      List.filterMap_cons, ht]
  · rw [hfm]
    induction targets with
    | nil => rfl
    | cons t ts ih =>
      cases h : solve t <;> simp [List.filterMap_cons, List.filter_cons, h, ih]

/-- C9, witness: with a solver that fails on target 2 and converges
elsewhere, the batch over [1, 2, 3] equals the batch over [1, 3]. -/
theorem c9_frontier_skips_failures_witness :
    calculate_efficient_frontier demo_solver ([1] ++ 2 :: [3]) =
      calculate_efficient_frontier demo_solver ([1] ++ [3]) :=
  c9_frontier_skips_failures.2.1 demo_solver [1] [3] 2 (by norm_num [demo_solver])

/-- C10: for a nonzero scalar volatility adjustment and target weights with
positive sum, the rebalancing operation's adjusted targets equal the target
weights divided by their sum — the scalar cancels under renormalization and
has no effect on either output component — and the adjusted targets sum
to 1. -/
theorem c10_rebalancing_adjustment_cancels (current_weights target_weights : List ℚ)
    (v : ℚ) (hv : v ≠ 0) (hsum : 0 < target_weights.sum) :
    (dynamic_rebalancing current_weights target_weights v).1 =
      target_weights.map (fun w => w / target_weights.sum) ∧
    dynamic_rebalancing current_weights target_weights v =
      dynamic_rebalancing current_weights target_weights 1 ∧
    (dynamic_rebalancing current_weights target_weights v).1.sum = 1 := by
  have hs : target_weights.sum ≠ 0 := ne_of_gt hsum
  have hmul : ∀ (c : ℚ) (l : List ℚ), (l.map (· * c)).sum = l.sum * c := by
    intro c l
    induction l with
    | nil => simp
    | cons a l ih => simp [ih]; ring
  have h1 : ∀ u : ℚ, u ≠ 0 →
      (dynamic_rebalancing current_weights target_weights u).1 =
        target_weights.map (fun w => w / target_weights.sum) := by
    intro u hu
    simp only [dynamic_rebalancing, hmul, List.map_map]
    refine List.map_congr_left fun w _ => ?_
    simp only [Function.comp]
    rw [mul_comm target_weights.sum u, mul_comm w u, mul_div_mul_left _ _ hu]
  have h2 : (dynamic_rebalancing current_weights target_weights v).2 =
      List.zipWith (· - ·)
        (dynamic_rebalancing current_weights target_weights v).1 current_weights :=
    rfl
  have h2' : (dynamic_rebalancing current_weights target_weights 1).2 =
      List.zipWith (· - ·)
        (dynamic_rebalancing current_weights target_weights 1).1 current_weights :=
    rfl
  refine ⟨h1 v hv, ?_, ?_⟩
  · refine Prod.ext ?_ ?_
    · rw [h1 v hv, h1 1 one_ne_zero]
    · rw [h2, h2', h1 v hv, h1 1 one_ne_zero]
  · rw [h1 v hv]
    have := hmul target_weights.sum⁻¹ target_weights
    simp only [div_eq_mul_inv]
    rw [this, mul_inv_cancel₀ hs]

/-- C10, witness: concrete rebalancing with adjustment 3 over target
weights [2, 2]. -/
theorem c10_rebalancing_adjustment_cancels_witness :
    (dynamic_rebalancing [1/2, 1/2] [2, 2] 3).1 =
      List.map (fun w => w / List.sum [2, 2]) [2, 2] ∧
    dynamic_rebalancing [1/2, 1/2] [2, 2] 3 = dynamic_rebalancing [1/2, 1/2] [2, 2] 1 ∧
    (dynamic_rebalancing [1/2, 1/2] [2, 2] 3).1.sum = 1 :=
  c10_rebalancing_adjustment_cancels [1/2, 1/2] [2, 2] 3 (by norm_num) (by norm_num)

/-- C4: the decision is STRONG_BUY iff score ≥ 75 and confidence ≥ 0.8,
else BUY iff score ≥ 65 and confidence ≥ 0.7, else STRONG_SELL iff
score ≤ 25 and confidence ≥ 0.8, else SELL iff score ≤ 35 and
confidence ≥ 0.7, else HOLD; and every signal in the emitted list comes
from an analysis entry whose decision is not HOLD (a HOLD entry emits
nothing). -/
theorem c4_signal_decision :
    (∀ (symbol : String) (d : AnalysisData),
      let es := d.enhanced_score.getD 50
      let c := d.confidence.getD (1/2)
      let act := (generate_base_signal symbol d).action
      (act = "STRONG_BUY" ↔ (es ≥ 75 ∧ c ≥ 8/10)) ∧
      (act = "BUY" ↔ (¬(es ≥ 75 ∧ c ≥ 8/10) ∧ (es ≥ 65 ∧ c ≥ 7/10))) ∧
      (act = "STRONG_SELL" ↔ (¬(es ≥ 75 ∧ c ≥ 8/10) ∧ ¬(es ≥ 65 ∧ c ≥ 7/10) ∧
        (es ≤ 25 ∧ c ≥ 8/10))) ∧
      (act = "SELL" ↔ (¬(es ≥ 75 ∧ c ≥ 8/10) ∧ ¬(es ≥ 65 ∧ c ≥ 7/10) ∧
        ¬(es ≤ 25 ∧ c ≥ 8/10) ∧ (es ≤ 35 ∧ c ≥ 7/10))) ∧
      (act = "HOLD" ↔ (¬(es ≥ 75 ∧ c ≥ 8/10) ∧ ¬(es ≥ 65 ∧ c ≥ 7/10) ∧
        ¬(es ≤ 25 ∧ c ≥ 8/10) ∧ ¬(es ≤ 35 ∧ c ≥ 7/10)))) ∧
    (∀ (enhance : BaseSignal → Option BaseSignal)
      (analysis : List (String × AnalysisData)) (sig : BaseSignal),
      sig ∈ generate_precision_signals enhance analysis →
      ∃ entry ∈ analysis,
        (generate_base_signal entry.1 entry.2).action ≠ "HOLD" ∧
        enhance (generate_base_signal entry.1 entry.2) = some sig) := by
  constructor
  · intro symbol d
    simp only [generate_base_signal]
    split_ifs with h1 h2 h3 h4 <;>
      refine ⟨?_, ?_, ?_, ?_, ?_⟩ <;> simp_all <;> linarith
  · intro enhance analysis sig hmem
    simp only [generate_precision_signals, List.mem_filterMap] at hmem
    obtain ⟨entry, hentry, hf⟩ := hmem
    by_cases h : (generate_base_signal entry.1 entry.2).action = "HOLD"
    · rw [if_pos h] at hf
      exact absurd hf (by simp)
    · rw [if_neg h] at hf
      exact ⟨entry, hentry, h, hf⟩

/-- C4, witness: an analysis entry with score 80 and confidence 0.9 decides
STRONG_BUY, and with the identity enhancement the emitted signal traces
back to that non-HOLD entry. -/
theorem c4_signal_decision_witness :
    ∃ entry ∈ [(("BTC" : String), AnalysisData.mk (some 80) (some (9/10)) (some 100))],
      (generate_base_signal entry.1 entry.2).action ≠ "HOLD" ∧
      Option.some (generate_base_signal entry.1 entry.2) =
        some (generate_base_signal "BTC"
          (AnalysisData.mk (some 80) (some (9/10)) (some 100))) := by
  refine c4_signal_decision.2 Option.some
    [("BTC", AnalysisData.mk (some 80) (some (9/10)) (some 100))]
    (generate_base_signal "BTC" (AnalysisData.mk (some 80) (some (9/10)) (some 100))) ?_
  have hact : (generate_base_signal "BTC"
      (AnalysisData.mk (some 80) (some (9/10)) (some 100))).action = "STRONG_BUY" := by
    norm_num [generate_base_signal]
  simp [generate_precision_signals, hact]

end CaravanMasterX
